import Mathlib

/-!
Verification development for the `intervals` tray utility
(`src/intervals.py`).  The Python source is shallowly embedded below:

* JSON values (`json.load` / `response.json()` results) become `JVal`;
  Python distinguishes `int` from `float`, so JSON numbers carry a
  `JNum` tag.  Python `float` is modelled as an exact rational; this is
  exact on every value the claims exercise.
* The HTTP layer (`requests.get`, `raise_for_status`, `.json()`) is
  modelled by a function from URLs to abstract outcomes (`Net`).
* `try/except` blocks become `Option`-valued helpers: a branch that
  would raise maps to `none`, and the enclosing handler supplies the
  fallback value.
* The settings file becomes an explicit `FileState`; a successful
  `json.dump` followed by `json.load` is modelled as storing the
  serialized `JVal` itself (Python's JSON round-trip is exact on it).
-/

namespace Intervals

/-- Python numbers as they come out of `json.load`: `int` or `float`.
A float is modelled as an exact rational. -/
inductive JNum where
  | int (n : Int)
  | float (q : ℚ)
deriving DecidableEq

/-- JSON values as Python objects: `None`, `bool`, numbers, `str`,
`list`, `dict` (JSON object keys are always strings). -/
inductive JVal where
  | jnull
  | jbool (b : Bool)
  | jnum (n : JNum)
  | jstr (s : String)
  | jarr (elems : List JVal)
  | jobj (fields : List (String × JVal))

/-- Python truthiness (`bool(v)`) for JSON-derived values: `None`,
`False`, zero, and empty containers/strings are falsy. -/
def truthy : JVal → Bool
  | .jnull => false
  | .jbool b => b
  | .jnum (.int n) => n ≠ 0
  | .jnum (.float q) => q ≠ 0
  | .jstr s => s ≠ ""
  | .jarr xs => !xs.isEmpty
  | .jobj fs => !fs.isEmpty

/-- Python `d.get(key, default)` for a dict parsed from JSON: first
binding of the key, else the default. -/
def dictGet (fields : List (String × JVal)) (key : String) (default : JVal) : JVal :=
  (fields.lookup key).getD default

/-- The credentials dict returned by `load_settings` (values are
arbitrary Python values: the source never coerces them to `str`). -/
structure Credentials where
  username : JVal
  password : JVal
  athlete_id : JVal

/-- State of `settings.json` as `load_settings` can encounter it:
absent, present but unreadable (`open`/read raises), or readable with
either malformed contents (`json.load` raises) or a parsed value. -/
inductive FileState where
  | missing
  | unreadable
  | content (v : Except String JVal)

/-- The `defaults` dict of `load_settings` (src/intervals.py:17). -/
def default_settings : Credentials :=
  ⟨.jstr "API_KEY", .jstr "", .jstr "0"⟩

/-- Function `load_settings` (src/intervals.py:16-29).  Missing file, I/O error,
JSON error, or a non-dict top level (whose `.get` raises
`AttributeError` inside the `try`) all fall back to `defaults`.
For a dict: `username` and `athlete_id` use `saved.get(k, default) or
default` (falsy stored values are replaced), `password` uses plain
`saved.get("password", "")`. -/
def load_settings (fs : FileState) : Credentials :=
  match fs with
  | .content (.ok (.jobj saved)) =>
      { username :=
          let v := dictGet saved "username" (.jstr "API_KEY")
          if truthy v then v else .jstr "API_KEY"
        password := dictGet saved "password" (.jstr "")
        athlete_id :=
          let v := dictGet saved "athlete_id" (.jstr "0")
          if truthy v then v else .jstr "0" }
  | _ => default_settings

/-- Function `save_settings` (src/intervals.py:31-40): the JSON object written to
`settings.json` on a successful write.  `json.dump` then `json.load`
round-trips exactly, so the file is modelled by the serialized value. -/
def save_settings (username password athlete_id : String) : JVal :=
  .jobj [("username", .jstr username),
         ("password", .jstr password),
         ("athlete_id", .jstr athlete_id)]

/-- Attribute `self.base_url` (src/intervals.py:47). -/
def base_url (athlete_id : String) : String :=
  "https://intervals.icu/api/v1/athlete/" ++ athlete_id ++ "/wellness"

/-- The events URL of `fetch_today_activity` (src/intervals.py:51):
`f"https://intervals.icu/api/v1/athlete/{athlete_id}/events{today}"`. -/
def events_url (athlete_id today : String) : String :=
  "https://intervals.icu/api/v1/athlete/" ++ athlete_id ++ "/events" ++ today

/-- The wellness URL of `fetch_today_stats` (src/intervals.py:65):
`f"{self.base_url}/{today}"`. -/
def wellness_url (athlete_id today : String) : String :=
  base_url athlete_id ++ "/" ++ today

/-- Floor of the fraction `n / d` for `d > 0`, computably:
floor division of the numerator by the denominator. -/
def ratFloor (q : ℚ) : Int :=
  q.num.fdiv q.den

/-- Truncation toward zero, the semantics of Python `int(float)`:
`Int.tdiv` is division rounding toward zero, and `den` is positive
(proved below equal to floor on nonnegatives and ceiling on
negatives). -/
def ratTrunc (q : ℚ) : Int :=
  q.num.tdiv q.den

/-- Banker's rounding of the fraction `n / d` (`d > 0`) to the nearest
integer, ties to even — the rounding mode of Python `round`.  The
fractional remainder `r / d` is compared with `1/2` as `2r` vs `d`. -/
def roundHalfEvenFrac (n d : Int) : Int :=
  let f := n.fdiv d
  let r := n - f * d
  if 2 * r < d then f
  else if d < 2 * r then f + 1
  else if f % 2 = 0 then f else f + 1

/-- Banker's rounding of a rational to the nearest integer. -/
def roundHalfEven (q : ℚ) : Int :=
  roundHalfEvenFrac q.num q.den

/-- Python `round(x, 2)` on a float, idealized over exact rationals: the
nearest (ties to even) multiple of `1/100`, i.e.
`roundHalfEven (q * 100) / 100` with `q * 100 = (100 * num) / den`
kept as an exact fraction.  (CPython rounds the binary double nearest
to `x`; on exactly representable inputs the two agree.) -/
def round2 (q : ℚ) : ℚ :=
  mkRat (roundHalfEvenFrac (100 * q.num) q.den) 100

/-- Python `int(v)` on a JSON-derived value: `Option.none` models the
`TypeError`/`ValueError` this raises on `None`, containers and
non-numeric strings.  (`int(str)` accepts an optionally signed decimal
literal — CPython additionally strips whitespace and underscores,
which no claim exercises; `int(bool)` gives 0/1; `int(float)`
truncates toward zero.) -/
def pyInt : JVal → Option Int
  | .jnum (.int n) => some n
  | .jnum (.float q) => some (ratTrunc q)
  | .jbool b => some (if b then 1 else 0)
  | .jstr s => s.toInt?
  | .jnull => none
  | .jarr _ => none
  | .jobj _ => none

/-- Python `round(v, 2)` on a JSON-derived value: an `int` (and a
`bool`, via `int.__round__`) is returned unchanged as an `int`; a
`float` is rounded to 2 decimal places; anything else raises
(`Option.none`). -/
def pyRound2 : JVal → Option JNum
  | .jnum (.int n) => some (.int n)
  | .jnum (.float q) => some (.float (round2 q))
  | .jbool b => some (.int (if b then 1 else 0))
  | .jnull => none
  | .jstr _ => none
  | .jarr _ => none
  | .jobj _ => none

/-- Python `round(n, 2)` on an `int` returns the integer unchanged. -/
def pyRound2Int (n : Int) : Int := n

/-- The decimal digit character for `d < 10`. -/
def digitChar (d : Nat) : Char := Char.ofNat (48 + d)

/-- Decimal digits, most significant first, by structural recursion on
a fuel argument (any fuel above the digit count yields the same list,
and `n + 1` always suffices). -/
def natDigitsAux : Nat → Nat → List Char
  | 0, _ => []
  | fuel + 1, n =>
    if n < 10 then [digitChar n]
    else natDigitsAux fuel (n / 10) ++ [digitChar (n % 10)]

/-- Decimal digits of a natural number, most significant first
(the digits of Python `str(n)` for `n ≥ 0`). -/
def natDigits (n : Nat) : List Char := natDigitsAux (n + 1) n

/-- Python `str(n)` for an `int`: decimal digits with a leading `-`
for negative values. -/
def intRepr (n : Int) : String :=
  if n < 0 then "-" ++ ⟨natDigits n.natAbs⟩ else ⟨natDigits n.natAbs⟩

/-- Python `str(x)` for a float whose value has an exact 2-decimal
representation (all floats this program prints: outputs of
`round(_, 2)`): at least one fractional digit is always shown
(`str(5.0) = "5.0"`), trailing zeros beyond it are not. -/
def floatRepr (q : ℚ) : String :=
  let n : Int := (100 * q.num).fdiv q.den
  let sign := if n < 0 then "-" else ""
  let m := n.natAbs
  let ip : Nat := m / 100
  let fp : Nat := m % 100
  sign ++ ⟨natDigits ip⟩ ++ "." ++
    (if fp % 10 = 0 then (⟨natDigits (fp / 10)⟩ : String)
     else (if fp < 10 then "0" else "") ++ ⟨natDigits fp⟩)

/-- Rendering of a Python number in an f-string. -/
def numRepr : JNum → String
  | .int n => intRepr n
  | .float q => floatRepr q

/-- Python `repr()` escaping for a character inside a single-quoted Python
string literal (approximated: backslash, the quote, and the common
control characters; no claim depends on it). -/
def pyEscapeChar (c : Char) : String :=
  if c = '\\' then "\\\\"
  else if c = Char.ofNat 39 then "\\" ++ (Char.ofNat 39).toString
  else if c = '\n' then "\\n"
  else if c = '\r' then "\\r"
  else if c = '\t' then "\\t"
  else c.toString

/-- Python `repr(s)` of a string, approximated with single quotes. -/
def pyReprStr (s : String) : String :=
  (Char.ofNat 39).toString ++ String.join (s.data.map pyEscapeChar) ++
    (Char.ofNat 39).toString

mutual

/-- Python `repr(v)` for JSON-derived values (what `str` falls back to
inside containers).  Quote choice and exotic escapes are approximated;
no claim depends on container rendering. -/
def pyRepr : JVal → String
  | .jnull => "None"
  | .jbool true => "True"
  | .jbool false => "False"
  | .jnum n => numRepr n
  | .jstr s => pyReprStr s
  | .jarr xs => "[" ++ pyReprList xs ++ "]"
  | .jobj fs => "\x7b" ++ pyReprObj fs ++ "\x7d"

/-- Comma-separated reprs of a list's elements. -/
def pyReprList : List JVal → String
  | [] => ""
  | [x] => pyRepr x
  | x :: y :: xs => pyRepr x ++ ", " ++ pyReprList (y :: xs)

/-- Comma-separated `key: value` reprs of a dict's items. -/
def pyReprObj : List (String × JVal) → String
  | [] => ""
  | [(k, v)] => pyReprStr k ++ ": " ++ pyRepr v
  | (k, v) :: kv :: fs => pyReprStr k ++ ": " ++ pyRepr v ++ ", " ++ pyReprObj (kv :: fs)

end

/-- Python `str(v)` as an f-string uses it: a `str` is inserted as-is,
anything else rendered (`str(None) = "None"`, numbers in decimal,
containers via `repr`). -/
def pyStr : JVal → String
  | .jstr s => s
  | .jnull => pyRepr .jnull
  | .jbool b => pyRepr (.jbool b)
  | .jnum n => pyRepr (.jnum n)
  | .jarr xs => pyRepr (.jarr xs)
  | .jobj fs => pyRepr (.jobj fs)

/-- The eight numeric locals `_parse_stats` computes
(src/intervals.py:77-84) before formatting. -/
structure DailyStats where
  ctl : Int
  atl : Int
  form : Int
  ramp : JNum
  restingHR : Int
  hrv : Int
  sleepScore : Int
  steps : Int
deriving DecidableEq

/-- The `data.get(field, 0)` reads in `_parse_stats`: the stored value, or the
Python int `0` when the key is absent. -/
def wfield (o : List (String × JVal)) (key : String) : JVal :=
  dictGet o key (.jnum (.int 0))

/-- The straight-line coercions of `_parse_stats`
(src/intervals.py:77-84).  A non-dict argument (no `.get`) and any
failing coercion raise, which the caller's `except` turns into the
failure string; both are `none` here.  The result is `some` exactly
when every line executes without raising. -/
def parse_stats_fields (data : JVal) : Option DailyStats :=
  match data with
  | .jobj o =>
    match pyInt (wfield o "ctl"), pyInt (wfield o "atl"),
          pyRound2 (wfield o "rampRate"), pyInt (wfield o "restingHR"),
          pyInt (wfield o "hrv"), pyInt (wfield o "sleepScore"),
          pyInt (wfield o "steps") with
    | some ctl, some atl, some ramp, some hr, some hrv, some sleep, some steps =>
        some ⟨ctl, atl, pyRound2Int (ctl - atl), ramp, hr, hrv, sleep, steps⟩
    | _, _, _, _, _, _, _ => none
  | _ => none

/-- The eight labeled lines of the f-string `_parse_stats` returns
(src/intervals.py:85-94), in source order. -/
def stats_lines (st : DailyStats) : List String :=
  ["CTL: " ++ intRepr st.ctl,
   "ATL: " ++ intRepr st.atl,
   "Form: " ++ intRepr st.form,
   "Ramp Rate: " ++ numRepr st.ramp,
   "Resting HR: " ++ intRepr st.restingHR,
   "HRV: " ++ intRepr st.hrv,
   "Sleep Score: " ++ intRepr st.sleepScore,
   "Steps: " ++ intRepr st.steps]

/-- The string `_parse_stats` returns: the eight lines joined by
newlines (the source concatenates `"...\n"` fragments). -/
def render_stats (st : DailyStats) : String :=
  String.intercalate "\n" (stats_lines st)

/-- Method `_parse_stats` (src/intervals.py:76-94) as its caller sees it:
`some` rendered string, or `none` when it raises. -/
def parse_stats (data : JVal) : Option String :=
  (parse_stats_fields data).map render_stats

/-- Outcome of `requests.get(url, auth=..., timeout=10)` followed by
`.json()`: a response carrying a status code and either a parsed JSON
body or a decode error; or a timeout; or another transport error. -/
structure HttpResponse where
  status : Nat
  body : Except String JVal

/-- Result of one HTTP GET as the client code observes it. -/
inductive HttpResult where
  | response (r : HttpResponse)
  | timeout
  | netError (msg : String)

/-- The network during one run: what each URL returns.  Both requests
of a `fetch_today_stats` call read from the same `Net`. -/
def Net := String → HttpResult

/-- Python `response.raise_for_status()` raises exactly for 4xx and 5xx
status codes. -/
def raisesForStatus (status : Nat) : Bool :=
  400 ≤ status && status < 600

/-- Method `fetch_today_activity` (src/intervals.py:49-61).  The source
returns `data[0].get("name", "Rest")` — the stored `name` value,
whatever it is — so the result is a `JVal` (normally a string); every
raising path is caught and yields `"Rest"`. -/
def fetch_today_activity (net : Net) (athlete_id today : String) : JVal :=
  match net (events_url athlete_id today) with
  | .response r =>
    if raisesForStatus r.status then .jstr "Rest"
    else
      match r.body with
      | .error _ => .jstr "Rest"
      | .ok (.jarr (first :: _)) =>
          match first with
          | .jobj fields => dictGet fields "name" (.jstr "Rest")
          | _ => .jstr "Rest"
      | .ok _ => .jstr "Rest"
  | .timeout => .jstr "Rest"
  | .netError _ => .jstr "Rest"

/-- Method `fetch_today_stats` (src/intervals.py:63-74): GET the wellness URL,
raise for status, parse, render, and prepend the `Today:` header with
the activity; any exception on the wellness side yields the failure
string.  (`fetch_today_activity` itself never raises.) -/
def fetch_today_stats (net : Net) (athlete_id today : String) : String :=
  match net (wellness_url athlete_id today) with
  | .response r =>
    if raisesForStatus r.status then "Failed to fetch data"
    else
      match r.body with
      | .error _ => "Failed to fetch data"
      | .ok data =>
        match parse_stats data with
        | none => "Failed to fetch data"
        | some stats =>
          "Today: " ++ pyStr (fetch_today_activity net athlete_id today) ++ "\n\n" ++ stats
  | .timeout => "Failed to fetch data"
  | .netError _ => "Failed to fetch data"

/-- No character of `s` is a newline (such a string occupies exactly
one line of a rendered multi-line message). -/
def noNL (s : String) : Prop := ∀ c ∈ s.data, c ≠ '\n'

/-! ### Concrete network scenarios used as witnesses/counterexamples -/

/-- A run in which the events endpoint returns HTTP 500 while the
wellness endpoint answers 200 with an empty JSON object. -/
def netEventsOnlyFailure : Net := fun url =>
  if url = events_url "42" "2026-10-12" then .response ⟨500, .ok (.jarr [])⟩
  else .response ⟨200, .ok (.jobj [])⟩

/-- A run in which the wellness endpoint times out (the events
endpoint would answer an empty array). -/
def netWellnessTimeout : Net := fun url =>
  if url = wellness_url "42" "2026-10-12" then .timeout
  else .response ⟨200, .ok (.jarr [])⟩

/-- A run in which every endpoint answers 200 with the one-element
array `[{"name": ""}]` (an event whose name is present but empty). -/
def netEmptyName : Net := fun _ =>
  .response ⟨200, .ok (.jarr [.jobj [("name", .jstr "")]])⟩

/-- A run in which every endpoint answers 200 with the empty array. -/
def netEmptyArray : Net := fun _ =>
  .response ⟨200, .ok (.jarr [])⟩

/-- A run in which the wellness endpoint answers 200 with
`{"ctl": null}` (a present but uncoercible field) and the events
endpoint answers an empty array. -/
def netNullCtl : Net := fun url =>
  if url = wellness_url "42" "2026-10-12" then
    .response ⟨200, .ok (.jobj [("ctl", .jnull)])⟩
  else .response ⟨200, .ok (.jarr [])⟩

/-- A run in which the wellness endpoint answers 200 with
`{"ctl": 50, "atl": 30}` and the events endpoint with
`[{"name": "Morning Ride"}]`. -/
def netNormalDay : Net := fun url =>
  if url = wellness_url "42" "2026-10-12" then
    .response ⟨200, .ok (.jobj [("ctl", .jnum (.int 50)), ("atl", .jnum (.int 30))])⟩
  else .response ⟨200, .ok (.jarr [.jobj [("name", .jstr "Morning Ride")]])⟩

/-! ### Supporting lemmas -/

theorem digitChar_ne_newline {d : Nat} (h : d < 10) : digitChar d ≠ '\n' := by
  interval_cases d <;> decide

theorem natDigitsAux_ne_newline :
    ∀ (fuel n : Nat), ∀ c ∈ natDigitsAux fuel n, c ≠ '\n' := by
  intro fuel
  induction fuel with
  | zero => intro n c hc; simp [natDigitsAux] at hc
  | succ f ih =>
    intro n c hc
    by_cases h : n < 10
    · simp [natDigitsAux, h] at hc
      subst hc
      exact digitChar_ne_newline h
    · simp [natDigitsAux, h] at hc
      rcases hc with hc | hc
      · exact ih _ c hc
      · subst hc
        exact digitChar_ne_newline (Nat.mod_lt _ (by omega))

theorem natDigits_noNL (n : Nat) : noNL ⟨natDigits n⟩ := by
  intro c hc
  exact natDigitsAux_ne_newline _ _ c hc

theorem intRepr_noNL (n : Int) : noNL (intRepr n) := by
  intro c hc
  unfold intRepr at hc
  split at hc
  · rw [String.data_append] at hc
    rcases List.mem_append.1 hc with h | h
    · intro he; subst he; exact absurd h (by decide)
    · exact natDigits_noNL _ c h
  · exact natDigits_noNL _ c hc

theorem floatRepr_noNL (q : ℚ) : noNL (floatRepr q) := by
  intro c hc
  unfold floatRepr at hc
  simp only [String.data_append] at hc
  rcases List.mem_append.1 hc with hc | hc
  · rcases List.mem_append.1 hc with hc | hc
    · rcases List.mem_append.1 hc with hc | hc
      · split at hc
        · intro he; subst he; exact absurd hc (by decide)
        · simp at hc
      · exact natDigits_noNL _ c hc
    · intro he; subst he; exact absurd hc (by decide)
  · split at hc
    · exact natDigits_noNL _ c hc
    · rw [String.data_append] at hc
      rcases List.mem_append.1 hc with hc | hc
      · split at hc
        · intro he; subst he; exact absurd hc (by decide)
        · simp at hc
      · exact natDigits_noNL _ c hc

theorem numRepr_noNL (x : JNum) : noNL (numRepr x) := by
  cases x with
  | int n => exact intRepr_noNL n
  | float q => exact floatRepr_noNL q

theorem wfield_absent {o : List (String × JVal)} {key : String}
    (h : o.lookup key = none) : wfield o key = .jnum (.int 0) := by
  unfold wfield dictGet
  rw [h]
  rfl

theorem render_stats_steps_suffix (st : DailyStats) :
    ∃ pre, render_stats st = pre ++ ("Steps: " ++ intRepr st.steps) :=
  ⟨_, rfl⟩

theorem parse_stats_fields_spec (o : List (String × JVal)) (st : DailyStats)
    (h : parse_stats_fields (.jobj o) = some st) :
    pyInt (wfield o "ctl") = some st.ctl ∧
    pyInt (wfield o "atl") = some st.atl ∧
    st.form = st.ctl - st.atl ∧
    pyRound2 (wfield o "rampRate") = some st.ramp ∧
    pyInt (wfield o "restingHR") = some st.restingHR ∧
    pyInt (wfield o "hrv") = some st.hrv ∧
    pyInt (wfield o "sleepScore") = some st.sleepScore ∧
    pyInt (wfield o "steps") = some st.steps := by
  obtain ⟨ctl, e1⟩ : ∃ x, pyInt (wfield o "ctl") = some x := by
    cases hx : pyInt (wfield o "ctl")
    · unfold parse_stats_fields at h
      simp [hx] at h
    · exact ⟨_, rfl⟩
  obtain ⟨atl, e2⟩ : ∃ x, pyInt (wfield o "atl") = some x := by
    cases hx : pyInt (wfield o "atl")
    · unfold parse_stats_fields at h
      simp [e1, hx] at h
    · exact ⟨_, rfl⟩
  obtain ⟨ramp, e3⟩ : ∃ x, pyRound2 (wfield o "rampRate") = some x := by
    cases hx : pyRound2 (wfield o "rampRate")
    · unfold parse_stats_fields at h
      simp [e1, e2, hx] at h
    · exact ⟨_, rfl⟩
  obtain ⟨hr, e4⟩ : ∃ x, pyInt (wfield o "restingHR") = some x := by
    cases hx : pyInt (wfield o "restingHR")
    · unfold parse_stats_fields at h
      simp [e1, e2, e3, hx] at h
    · exact ⟨_, rfl⟩
  obtain ⟨hrv, e5⟩ : ∃ x, pyInt (wfield o "hrv") = some x := by
    cases hx : pyInt (wfield o "hrv")
    · unfold parse_stats_fields at h
      simp [e1, e2, e3, e4, hx] at h
    · exact ⟨_, rfl⟩
  obtain ⟨sleep, e6⟩ : ∃ x, pyInt (wfield o "sleepScore") = some x := by
    cases hx : pyInt (wfield o "sleepScore")
    · unfold parse_stats_fields at h
      simp [e1, e2, e3, e4, e5, hx] at h
    · exact ⟨_, rfl⟩
  obtain ⟨steps, e7⟩ : ∃ x, pyInt (wfield o "steps") = some x := by
    cases hx : pyInt (wfield o "steps")
    · unfold parse_stats_fields at h
      simp [e1, e2, e3, e4, e5, e6, hx] at h
    · exact ⟨_, rfl⟩
  unfold parse_stats_fields at h
  simp only [e1, e2, e3, e4, e5, e6, e7, Option.some.injEq] at h
  subst h
  exact ⟨e1, e2, rfl, e3, e4, e5, e6, e7⟩

theorem parse_stats_fields_none (o : List (String × JVal))
    (h : pyInt (wfield o "ctl") = none ∨ pyInt (wfield o "atl") = none ∨
      pyRound2 (wfield o "rampRate") = none ∨
      pyInt (wfield o "restingHR") = none ∨ pyInt (wfield o "hrv") = none ∨
      pyInt (wfield o "sleepScore") = none ∨ pyInt (wfield o "steps") = none) :
    parse_stats_fields (.jobj o) = none := by
  cases hp : parse_stats_fields (.jobj o) with
  | none => rfl
  | some st =>
    obtain ⟨e1, e2, _, e3, e4, e5, e6, e7⟩ := parse_stats_fields_spec o st hp
    rcases h with h | h | h | h | h | h | h <;> simp_all

theorem ratFloor_eq_floor (q : ℚ) : ratFloor q = ⌊q⌋ := by
  rw [Rat.floor_def]
  exact Int.fdiv_eq_ediv _ (by exact_mod_cast Nat.zero_le _)

theorem ratTrunc_eq (q : ℚ) : ratTrunc q = if 0 ≤ q then ⌊q⌋ else ⌈q⌉ := by
  unfold ratTrunc
  split
  case isTrue h =>
    rw [Int.tdiv_eq_ediv (Rat.num_nonneg.2 h) (by exact_mod_cast Nat.zero_le _),
      Rat.floor_def]
  case isFalse h =>
    have hq : q.num < 0 := by
      rw [← Rat.num_nonneg] at h; omega
    have hrw : q.num.tdiv q.den = -((-q.num).tdiv q.den) := by
      rw [Int.neg_tdiv, Int.neg_neg]
    rw [hrw, Int.tdiv_eq_ediv (by omega) (by exact_mod_cast Nat.zero_le _)]
    have h2 : (-q.num) / (q.den : Int) = ⌊-q⌋ := by
      rw [Rat.floor_def, Rat.num_neg_eq_neg_num, Rat.den_neg_eq_den]
    rw [h2, Int.floor_neg]
    simp

/-! ### Claims -/

/-- C7: for every athlete id and date, the events endpoint URL is the
path segment `events` concatenated with the ISO date with no separator
between them, while the wellness URL joins the base path and the date
with a `/`. -/
theorem url_construction (athlete_id today : String) :
    events_url athlete_id today =
      "https://intervals.icu/api/v1/athlete/" ++ athlete_id ++ "/events" ++ today ∧
    wellness_url athlete_id today =
      ("https://intervals.icu/api/v1/athlete/" ++ athlete_id ++ "/wellness") ++
        "/" ++ today :=
  ⟨rfl, rfl⟩

/-- C2 counterexample to the claim as stated: saving the triple
`("", "pw", "7")` and loading it back yields username `"API_KEY"`
(the empty saved username is falsy and replaced by the default), not
the saved empty string. -/
theorem save_load_empty_username_cex :
    (load_settings (.content (.ok (save_settings "" "pw" "7")))).username =
      JVal.jstr "API_KEY" ∧ JVal.jstr "API_KEY" ≠ JVal.jstr "" :=
  ⟨rfl, fun h => by simp at h⟩

/-- C2 amended: the save/load round-trip of all three fields holds for
every triple of strings whose username and athlete id are non-empty
(the password round-trips unconditionally; an empty username or
athlete id comes back as its default instead). -/
theorem save_load_roundtrip (username password athlete_id : String)
    (hu : username ≠ "") (ha : athlete_id ≠ "") :
    load_settings (.content (.ok (save_settings username password athlete_id))) =
      ⟨.jstr username, .jstr password, .jstr athlete_id⟩ := by
  unfold load_settings save_settings dictGet truthy
  simp [List.lookup, hu, ha]

/-- Witness for `save_load_roundtrip` at the triple
`("alice", "s3cret", "3")`. -/
theorem save_load_roundtrip_witness :
    ("alice" : String) ≠ "" ∧ ("3" : String) ≠ "" ∧
    load_settings (.content (.ok (save_settings "alice" "s3cret" "3"))) =
      ⟨.jstr "alice", .jstr "s3cret", .jstr "3"⟩ :=
  ⟨by decide, by decide,
    save_load_roundtrip "alice" "s3cret" "3" (by decide) (by decide)⟩

/-- C10: `load_settings` treats the password asymmetrically: a stored
password value is returned unchanged even when falsy (e.g. JSON
`null`), while a falsy stored username or athlete id is replaced by
its default. -/
theorem load_settings_password_asymmetry (saved : List (String × JVal)) :
    (∀ v, saved.lookup "password" = some v →
      (load_settings (.content (.ok (.jobj saved)))).password = v) ∧
    (∀ v, saved.lookup "username" = some v → truthy v = false →
      (load_settings (.content (.ok (.jobj saved)))).username = .jstr "API_KEY") ∧
    (∀ v, saved.lookup "athlete_id" = some v → truthy v = false →
      (load_settings (.content (.ok (.jobj saved)))).athlete_id = .jstr "0") := by
  refine ⟨fun v hv => ?_, fun v hv hf => ?_, fun v hv hf => ?_⟩
  · unfold load_settings dictGet
    simp [hv]
  · unfold load_settings dictGet
    simp [hv, hf]
  · unfold load_settings dictGet
    simp [hv, hf]

/-- Witness for `load_settings_password_asymmetry`: a file storing
JSON `null` for all three fields keeps `null` as the password but
replaces username and athlete id by their defaults. -/
theorem load_settings_password_asymmetry_witness :
    ([("username", JVal.jnull), ("password", JVal.jnull),
        ("athlete_id", JVal.jnull)].lookup "password" = some JVal.jnull) ∧
    truthy JVal.jnull = false ∧
    (load_settings (.content (.ok (.jobj
      [("username", .jnull), ("password", .jnull), ("athlete_id", .jnull)])))).password =
        JVal.jnull ∧
    (load_settings (.content (.ok (.jobj
      [("username", .jnull), ("password", .jnull), ("athlete_id", .jnull)])))).username =
        .jstr "API_KEY" ∧
    (load_settings (.content (.ok (.jobj
      [("username", .jnull), ("password", .jnull), ("athlete_id", .jnull)])))).athlete_id =
        .jstr "0" :=
  ⟨rfl, rfl,
    (load_settings_password_asymmetry _).1 JVal.jnull rfl,
    (load_settings_password_asymmetry _).2.1 JVal.jnull rfl rfl,
    (load_settings_password_asymmetry _).2.2 JVal.jnull rfl rfl⟩

/-- C5 counterexample to the claim as stated: in a well-formed file
storing `false` for `username` — a value that is present and is not
empty — the claim predicts the stored value back, but `load_settings`
substitutes the default `"API_KEY"`. -/
theorem load_settings_falsy_username_cex :
    (load_settings (.content (.ok (.jobj
      [("username", .jbool false), ("password", .jstr "pw"),
       ("athlete_id", .jstr "7")])))).username = JVal.jstr "API_KEY" ∧
    JVal.jstr "API_KEY" ≠ JVal.jbool false :=
  ⟨rfl, fun h => JVal.noConfusion h⟩

/-- C5 amended: `load_settings` is a total function of the file state
(it never raises).  Missing, unreadable or malformed files and
well-formed non-object files yield all three defaults.  For an object,
`username` and `athlete_id` take their defaults exactly when the key
is absent or the stored value is falsy (in particular empty), and the
stored value otherwise; `password` takes its default `""` exactly when
the key is absent, and any present value — falsy or not — is returned
unchanged. -/
theorem load_settings_defaults (fs : FileState) :
    (fs = .missing → load_settings fs = default_settings) ∧
    (fs = .unreadable → load_settings fs = default_settings) ∧
    (∀ e, fs = .content (.error e) → load_settings fs = default_settings) ∧
    (∀ v, fs = .content (.ok v) → (∀ o, v ≠ .jobj o) →
      load_settings fs = default_settings) ∧
    (∀ o, fs = .content (.ok (.jobj o)) →
      ((o.lookup "username" = none →
          (load_settings fs).username = .jstr "API_KEY") ∧
       (∀ w, o.lookup "username" = some w → truthy w = false →
          (load_settings fs).username = .jstr "API_KEY") ∧
       (∀ w, o.lookup "username" = some w → truthy w = true →
          (load_settings fs).username = w) ∧
       (o.lookup "password" = none → (load_settings fs).password = .jstr "") ∧
       (∀ w, o.lookup "password" = some w → (load_settings fs).password = w) ∧
       (o.lookup "athlete_id" = none → (load_settings fs).athlete_id = .jstr "0") ∧
       (∀ w, o.lookup "athlete_id" = some w → truthy w = false →
          (load_settings fs).athlete_id = .jstr "0") ∧
       (∀ w, o.lookup "athlete_id" = some w → truthy w = true →
          (load_settings fs).athlete_id = w))) := by
  refine ⟨fun h => by subst h; rfl, fun h => by subst h; rfl,
    fun e h => by subst h; rfl, fun v h hno => ?_, fun o h => ?_⟩
  · subst h
    cases v with
    | jobj o => exact absurd rfl (hno o)
    | jnull => rfl
    | jbool b => rfl
    | jnum n => rfl
    | jstr s => rfl
    | jarr xs => rfl
  · subst h
    refine ⟨fun hn => by unfold load_settings dictGet; simp [hn],
      fun w hw hf => by unfold load_settings dictGet; simp [hw, hf],
      fun w hw ht => by unfold load_settings dictGet; simp [hw, ht],
      fun hn => by unfold load_settings dictGet; simp [hn],
      fun w hw => by unfold load_settings dictGet; simp [hw],
      fun hn => by unfold load_settings dictGet; simp [hn],
      fun w hw hf => by unfold load_settings dictGet; simp [hw, hf],
      fun w hw ht => by unfold load_settings dictGet; simp [hw, ht]⟩

/-- Witness for `load_settings_defaults`, exercising the missing-file
case and the object case with an absent username, a falsy (empty)
athlete id and a stored password. -/
theorem load_settings_defaults_witness :
    (load_settings .missing = default_settings) ∧
    (load_settings (.content (.ok (.jobj
       [("athlete_id", .jstr ""), ("password", .jstr "k")])))).username =
      .jstr "API_KEY" ∧
    (load_settings (.content (.ok (.jobj
       [("athlete_id", .jstr ""), ("password", .jstr "k")])))).athlete_id =
      .jstr "0" ∧
    (load_settings (.content (.ok (.jobj
       [("athlete_id", .jstr ""), ("password", .jstr "k")])))).password =
      .jstr "k" :=
  ⟨(load_settings_defaults .missing).1 rfl,
    ((load_settings_defaults _).2.2.2.2 _ rfl).1 rfl,
    ((load_settings_defaults _).2.2.2.2 _ rfl).2.2.2.2.2.2.1 (.jstr "") rfl rfl,
    ((load_settings_defaults _).2.2.2.2 _ rfl).2.2.2.2.1 (.jstr "k") rfl⟩

/-- C1 counterexample to the claim as stated: in a run where the
*events* endpoint returns HTTP 500 (and the wellness endpoint
succeeds), `fetch_today_stats` does not return the failure string —
the events failure is swallowed inside `fetch_today_activity`, which
degrades to `"Rest"`. -/
theorem fetch_today_stats_events_failure_cex :
    netEventsOnlyFailure (events_url "42" "2026-10-12") =
      .response ⟨500, .ok (.jarr [])⟩ ∧
    fetch_today_stats netEventsOnlyFailure "42" "2026-10-12" =
      "Today: Rest\n\nCTL: 0\nATL: 0\nForm: 0\nRamp Rate: 0\nResting HR: 0\nHRV: 0\nSleep Score: 0\nSteps: 0" ∧
    fetch_today_stats netEventsOnlyFailure "42" "2026-10-12" ≠
      "Failed to fetch data" :=
  ⟨rfl, rfl, by decide⟩

/-- C1 amended: whenever the *wellness* endpoint returns an HTTP 500
or times out, `fetch_today_stats` returns exactly the literal string
`"Failed to fetch data"` (and, being total, does not raise); a failure
of the events endpoint alone instead yields a normal stats string with
activity `"Rest"`. -/
theorem fetch_today_stats_wellness_failure_fails (net : Net)
    (athlete_id today : String)
    (h : net (wellness_url athlete_id today) = .timeout ∨
      ∃ r, net (wellness_url athlete_id today) = .response r ∧ r.status = 500) :
    fetch_today_stats net athlete_id today = "Failed to fetch data" := by
  unfold fetch_today_stats
  rcases h with h | ⟨r, hr, hs⟩
  · rw [h]
  · rw [hr]
    have hraise : raisesForStatus r.status = true := by
      rw [hs]; rfl
    simp [hraise]

/-- Witness for `fetch_today_stats_wellness_failure_fails`: a run
whose wellness request times out. -/
theorem fetch_today_stats_wellness_failure_fails_witness :
    (netWellnessTimeout (wellness_url "42" "2026-10-12") = .timeout ∨
      ∃ r, netWellnessTimeout (wellness_url "42" "2026-10-12") = .response r ∧
        r.status = 500) ∧
    fetch_today_stats netWellnessTimeout "42" "2026-10-12" =
      "Failed to fetch data" :=
  ⟨Or.inl rfl,
    fetch_today_stats_wellness_failure_fails netWellnessTimeout "42" "2026-10-12"
      (Or.inl rfl)⟩

/-- C3 counterexample to the claim as stated: when the first event's
`name` field is present but empty, `fetch_today_activity` returns the
empty string as-is, not `"Rest"`. -/
theorem fetch_today_activity_empty_name_cex :
    fetch_today_activity netEmptyName "42" "2026-10-12" = JVal.jstr "" ∧
    JVal.jstr "" ≠ JVal.jstr "Rest" :=
  ⟨rfl, fun h => by simp at h⟩

/-- C3 amended: `fetch_today_activity` returns the value of the `name`
field of the first array element whenever the payload is a JSON array
whose first element is an object — even when that value is the empty
string — and `"Rest"` when the field is absent; for an empty array, a
4xx/5xx status, a timeout, another transport error, a malformed
payload, a non-array payload, or a non-object first element it
returns `"Rest"` without raising. -/
theorem fetch_today_activity_cases (net : Net) (athlete_id today : String) :
    (∀ r fields rest, net (events_url athlete_id today) = .response r →
      raisesForStatus r.status = false →
      r.body = .ok (.jarr (.jobj fields :: rest)) →
      fetch_today_activity net athlete_id today =
        (fields.lookup "name").getD (.jstr "Rest")) ∧
    (∀ r, net (events_url athlete_id today) = .response r →
      raisesForStatus r.status = false → r.body = .ok (.jarr []) →
      fetch_today_activity net athlete_id today = .jstr "Rest") ∧
    (∀ r, net (events_url athlete_id today) = .response r →
      raisesForStatus r.status = true →
      fetch_today_activity net athlete_id today = .jstr "Rest") ∧
    (net (events_url athlete_id today) = .timeout →
      fetch_today_activity net athlete_id today = .jstr "Rest") ∧
    (∀ m, net (events_url athlete_id today) = .netError m →
      fetch_today_activity net athlete_id today = .jstr "Rest") ∧
    (∀ r m, net (events_url athlete_id today) = .response r → r.body = .error m →
      fetch_today_activity net athlete_id today = .jstr "Rest") ∧
    (∀ r v, net (events_url athlete_id today) = .response r →
      raisesForStatus r.status = false → r.body = .ok v → (∀ xs, v ≠ .jarr xs) →
      fetch_today_activity net athlete_id today = .jstr "Rest") ∧
    (∀ r first rest, net (events_url athlete_id today) = .response r →
      raisesForStatus r.status = false → r.body = .ok (.jarr (first :: rest)) →
      (∀ fields, first ≠ .jobj fields) →
      fetch_today_activity net athlete_id today = .jstr "Rest") := by
  refine ⟨fun r fields rest hr hs hb => ?_, fun r hr hs hb => ?_,
    fun r hr hs => ?_, fun h => ?_, fun m h => ?_, fun r m hr hb => ?_,
    fun r v hr hs hb hv => ?_, fun r first rest hr hs hb hf => ?_⟩
  · unfold fetch_today_activity
    rw [hr]
    simp [hs, hb, dictGet]
  · unfold fetch_today_activity
    rw [hr]
    simp [hs, hb]
  · unfold fetch_today_activity
    rw [hr]
    simp [hs]
  · unfold fetch_today_activity
    rw [h]
  · unfold fetch_today_activity
    rw [h]
  · unfold fetch_today_activity
    rw [hr]
    cases hrs : raisesForStatus r.status
    · simp [hrs, hb]
    · simp [hrs]
  · unfold fetch_today_activity
    rw [hr]
    simp only [hs, Bool.false_eq_true, if_false, hb]
    cases v with
    | jarr xs => exact absurd rfl (hv xs)
    | jnull => rfl
    | jbool b => rfl
    | jnum n => rfl
    | jstr s => rfl
    | jobj fs => rfl
  · unfold fetch_today_activity
    rw [hr]
    simp only [hs, Bool.false_eq_true, if_false, hb]

/-- Witness for `fetch_today_activity_cases`: an empty events array
yields `"Rest"`, and a present non-empty `name` is returned. -/
theorem fetch_today_activity_cases_witness :
    fetch_today_activity netEmptyArray "42" "2026-10-12" = JVal.jstr "Rest" ∧
    fetch_today_activity netNormalDay "42" "2026-10-12" =
      JVal.jstr "Morning Ride" :=
  ⟨(fetch_today_activity_cases netEmptyArray "42" "2026-10-12").2.1
      ⟨200, .ok (.jarr [])⟩ rfl rfl rfl,
    (fetch_today_activity_cases netNormalDay "42" "2026-10-12").1
      ⟨200, .ok (.jarr [.jobj [("name", .jstr "Morning Ride")]])⟩
      [("name", .jstr "Morning Ride")] [] rfl rfl rfl⟩

/-- C4: whenever `_parse_stats` succeeds on a wellness object, its
eight numbers are exactly: `ctl` and `atl` the integer coercions of
the fields (default 0 when absent), `form = ctl - atl` (the result of
`round(ctl - atl, 2)` on integers), `rampRate` rounded to 2 decimals
(default the integer 0 when absent), and integer coercions defaulting
to 0 for `restingHR`, `hrv`, `sleepScore`, `steps`; a payload without
`steps` renders a final line `Steps: 0`. -/
theorem parse_stats_field_semantics (o : List (String × JVal)) (st : DailyStats)
    (h : parse_stats_fields (.jobj o) = some st) :
    pyInt (wfield o "ctl") = some st.ctl ∧
    pyInt (wfield o "atl") = some st.atl ∧
    st.form = st.ctl - st.atl ∧
    pyRound2 (wfield o "rampRate") = some st.ramp ∧
    pyInt (wfield o "restingHR") = some st.restingHR ∧
    pyInt (wfield o "hrv") = some st.hrv ∧
    pyInt (wfield o "sleepScore") = some st.sleepScore ∧
    pyInt (wfield o "steps") = some st.steps ∧
    (o.lookup "ctl" = none → st.ctl = 0) ∧
    (o.lookup "atl" = none → st.atl = 0) ∧
    (o.lookup "rampRate" = none → st.ramp = .int 0) ∧
    (o.lookup "restingHR" = none → st.restingHR = 0) ∧
    (o.lookup "hrv" = none → st.hrv = 0) ∧
    (o.lookup "sleepScore" = none → st.sleepScore = 0) ∧
    (o.lookup "steps" = none → st.steps = 0) ∧
    (o.lookup "steps" = none → ∃ pre, render_stats st = pre ++ "Steps: 0") := by
  obtain ⟨e1, e2, ef, e3, e4, e5, e6, e7⟩ := parse_stats_fields_spec o st h
  refine ⟨e1, e2, ef, e3, e4, e5, e6, e7, ?_, ?_, ?_, ?_, ?_, ?_, ?_, ?_⟩
  · intro hn
    rw [wfield_absent hn] at e1
    have : some (0 : Int) = some st.ctl := e1
    simpa [eq_comm] using this
  · intro hn
    rw [wfield_absent hn] at e2
    have : some (0 : Int) = some st.atl := e2
    simpa [eq_comm] using this
  · intro hn
    rw [wfield_absent hn] at e3
    have : some (JNum.int 0) = some st.ramp := e3
    simpa [eq_comm] using this
  · intro hn
    rw [wfield_absent hn] at e4
    have : some (0 : Int) = some st.restingHR := e4
    simpa [eq_comm] using this
  · intro hn
    rw [wfield_absent hn] at e5
    have : some (0 : Int) = some st.hrv := e5
    simpa [eq_comm] using this
  · intro hn
    rw [wfield_absent hn] at e6
    have : some (0 : Int) = some st.sleepScore := e6
    simpa [eq_comm] using this
  · intro hn
    rw [wfield_absent hn] at e7
    have : some (0 : Int) = some st.steps := e7
    simpa [eq_comm] using this
  · intro hn
    rw [wfield_absent hn] at e7
    have hs0 : some (0 : Int) = some st.steps := e7
    have h0 : st.steps = 0 := by simpa [eq_comm] using hs0
    obtain ⟨pre, hpre⟩ := render_stats_steps_suffix st
    exact ⟨pre, by rw [hpre, h0]; rfl⟩

/-- Witness for `parse_stats_field_semantics`: the payload
`{"ctl": 50, "atl": 30}` (no `steps`) parses with `form = 20 = 50 - 30`
and renders a final `Steps: 0` line. -/
theorem parse_stats_field_semantics_witness :
    parse_stats_fields (.jobj [("ctl", .jnum (.int 50)), ("atl", .jnum (.int 30))]) =
      some ⟨50, 30, 20, .int 0, 0, 0, 0, 0⟩ ∧
    (20 : Int) = 50 - 30 ∧
    ∃ pre, render_stats (⟨50, 30, 20, .int 0, 0, 0, 0, 0⟩ : DailyStats) =
      pre ++ "Steps: 0" :=
  ⟨rfl,
    (parse_stats_field_semantics
      [("ctl", .jnum (.int 50)), ("atl", .jnum (.int 30))] ⟨50, 30, 20, .int 0, 0, 0, 0, 0⟩ rfl).2.2.1,
    (parse_stats_field_semantics
      [("ctl", .jnum (.int 50)), ("atl", .jnum (.int 30))] ⟨50, 30, 20, .int 0, 0, 0, 0, 0⟩ rfl).2.2.2.2.2.2.2.2.2.2.2.2.2.2.2 rfl⟩

/-- C9: the 0-default applies only to absent wellness fields.  When a
field is *present* but its value cannot be coerced (`int(...)` or
`round(..., 2)` raises, e.g. on `null` or a non-numeric string), the
exception escapes `_parse_stats` and the whole `fetch_today_stats`
call returns `"Failed to fetch data"` instead of substituting 0. -/
theorem coercion_failure_fails_whole_call (net : Net)
    (athlete_id today : String) (r : HttpResponse)
    (o : List (String × JVal)) (v : JVal)
    (hnet : net (wellness_url athlete_id today) = .response r)
    (hstatus : raisesForStatus r.status = false)
    (hbody : r.body = .ok (.jobj o))
    (hfield :
      (∃ f ∈ (["ctl", "atl", "restingHR", "hrv", "sleepScore", "steps"] : List String),
        o.lookup f = some v ∧ pyInt v = none) ∨
      (o.lookup "rampRate" = some v ∧ pyRound2 v = none)) :
    fetch_today_stats net athlete_id today = "Failed to fetch data" := by
  have hwf : ∀ f : String, o.lookup f = some v → wfield o f = v := by
    intro f hf
    unfold wfield dictGet
    rw [hf]
    rfl
  have hnone : parse_stats_fields (.jobj o) = none := by
    apply parse_stats_fields_none
    rcases hfield with ⟨f, hmem, hlk, hbad⟩ | ⟨hlk, hbad⟩
    · fin_cases hmem
      · exact Or.inl (by rw [hwf _ hlk]; exact hbad)
      · exact Or.inr (Or.inl (by rw [hwf _ hlk]; exact hbad))
      · exact Or.inr (Or.inr (Or.inr (Or.inl (by rw [hwf _ hlk]; exact hbad))))
      · exact Or.inr (Or.inr (Or.inr (Or.inr (Or.inl
          (by rw [hwf _ hlk]; exact hbad)))))
      · exact Or.inr (Or.inr (Or.inr (Or.inr (Or.inr (Or.inl
          (by rw [hwf _ hlk]; exact hbad))))))
      · exact Or.inr (Or.inr (Or.inr (Or.inr (Or.inr (Or.inr
          (by rw [hwf _ hlk]; exact hbad))))))
    · exact Or.inr (Or.inr (Or.inl (by rw [hwf _ hlk]; exact hbad)))
  unfold fetch_today_stats
  rw [hnet]
  simp [hstatus, hbody, parse_stats, hnone]

/-- Witness for `coercion_failure_fails_whole_call`: a wellness
payload `{"ctl": null}` makes the whole call fail. -/
theorem coercion_failure_fails_whole_call_witness :
    netNullCtl (wellness_url "42" "2026-10-12") =
      .response ⟨200, .ok (.jobj [("ctl", .jnull)])⟩ ∧
    pyInt JVal.jnull = none ∧
    fetch_today_stats netNullCtl "42" "2026-10-12" = "Failed to fetch data" :=
  ⟨rfl, rfl,
    coercion_failure_fails_whole_call netNullCtl "42" "2026-10-12"
      ⟨200, .ok (.jobj [("ctl", .jnull)])⟩ [("ctl", .jnull)] .jnull
      rfl rfl rfl (Or.inl ⟨"ctl", by decide, rfl, rfl⟩)⟩

/-- C6: on every successful fetch, the rendered string is the
`Today: <activity>` header, a blank line, and then exactly 8
newline-free labeled lines in the fixed order CTL, ATL, Form,
Ramp Rate, Resting HR, HRV, Sleep Score, Steps. -/
theorem fetch_today_stats_eight_lines (net : Net) (athlete_id today : String)
    (r : HttpResponse) (body : JVal) (st : DailyStats)
    (hnet : net (wellness_url athlete_id today) = .response r)
    (hstatus : raisesForStatus r.status = false)
    (hbody : r.body = .ok body)
    (hparse : parse_stats_fields body = some st) :
    ∃ v1 v2 v3 v4 v5 v6 v7 v8,
      fetch_today_stats net athlete_id today =
        "Today: " ++ pyStr (fetch_today_activity net athlete_id today) ++
          "\n\n" ++
          String.intercalate "\n"
            ["CTL: " ++ v1, "ATL: " ++ v2, "Form: " ++ v3, "Ramp Rate: " ++ v4,
             "Resting HR: " ++ v5, "HRV: " ++ v6, "Sleep Score: " ++ v7,
             "Steps: " ++ v8] ∧
      noNL v1 ∧ noNL v2 ∧ noNL v3 ∧ noNL v4 ∧ noNL v5 ∧ noNL v6 ∧ noNL v7 ∧
      noNL v8 := by
  refine ⟨intRepr st.ctl, intRepr st.atl, intRepr st.form, numRepr st.ramp,
    intRepr st.restingHR, intRepr st.hrv, intRepr st.sleepScore,
    intRepr st.steps, ?_, intRepr_noNL _, intRepr_noNL _, intRepr_noNL _,
    numRepr_noNL _, intRepr_noNL _, intRepr_noNL _, intRepr_noNL _,
    intRepr_noNL _⟩
  unfold fetch_today_stats
  rw [hnet]
  simp [hstatus, hbody, parse_stats, hparse, render_stats, stats_lines]

/-- Witness for `fetch_today_stats_eight_lines`: a normal run with
`{"ctl": 50, "atl": 30}` and one named event. -/
theorem fetch_today_stats_eight_lines_witness :
    netNormalDay (wellness_url "42" "2026-10-12") =
      .response ⟨200, .ok (.jobj [("ctl", .jnum (.int 50)), ("atl", .jnum (.int 30))])⟩ ∧
    ∃ v1 v2 v3 v4 v5 v6 v7 v8,
      fetch_today_stats netNormalDay "42" "2026-10-12" =
        "Today: " ++ pyStr (fetch_today_activity netNormalDay "42" "2026-10-12") ++
          "\n\n" ++
          String.intercalate "\n"
            ["CTL: " ++ v1, "ATL: " ++ v2, "Form: " ++ v3, "Ramp Rate: " ++ v4,
             "Resting HR: " ++ v5, "HRV: " ++ v6, "Sleep Score: " ++ v7,
             "Steps: " ++ v8] ∧
      noNL v1 ∧ noNL v2 ∧ noNL v3 ∧ noNL v4 ∧ noNL v5 ∧ noNL v6 ∧ noNL v7 ∧
      noNL v8 :=
  ⟨rfl,
    fetch_today_stats_eight_lines netNormalDay "42" "2026-10-12"
      ⟨200, .ok (.jobj [("ctl", .jnum (.int 50)), ("atl", .jnum (.int 30))])⟩
      (.jobj [("ctl", .jnum (.int 50)), ("atl", .jnum (.int 30))])
      ⟨50, 30, 20, .int 0, 0, 0, 0, 0⟩ rfl rfl rfl rfl⟩

/-- C8: `int()` on a present non-integral float truncates toward zero
(floor for nonnegative values, ceiling for negative ones) rather than
rounding: `ctl = 50.9` parses to 50 — not the rounded 51 — and
renders as `CTL: 50`. -/
theorem pyInt_truncates_toward_zero :
    (∀ q : ℚ, pyInt (.jnum (.float q)) =
      some (if 0 ≤ q then ⌊q⌋ else ⌈q⌉)) ∧
    pyInt (.jnum (.float (mkRat 509 10))) = some 50 ∧
    roundHalfEven (mkRat 509 10) = 51 ∧
    parse_stats (.jobj [("ctl", .jnum (.float (mkRat 509 10)))]) =
      some "CTL: 50\nATL: 0\nForm: 50\nRamp Rate: 0\nResting HR: 0\nHRV: 0\nSleep Score: 0\nSteps: 0" := by
  refine ⟨fun q => ?_, by decide, by decide, rfl⟩
  show some (ratTrunc q) = _
  rw [ratTrunc_eq]

end Intervals
